import Mathlib

set_option linter.unusedVariables false

/-!
Shallow embedding of the tray controller in `src/src-tauri/src/lib.rs`.

The source builds six tray-menu items, attaches them to a tray icon, and
registers one `on_menu_event` closure that matches on the menu identifier and
performs at most one window call (`show`, `hide`, `emit`) on the webview window
labelled `"main"`, or exits the process. We embed the observable world (menu,
tray menu, labelled windows), the fallible startup chain (`?` propagation
through `MenuItem::with_id`, `Menu::with_items`, `TrayIconBuilder::build`) and
the dispatch closure as a function producing the new state, the labels looked
up, the external calls attempted, and whether the process exits.
-/

/-- A tray menu entry as built by `MenuItem::with_id(app, id, label, enabled,
accelerator)`: identifier, display label, enabled flag (accelerators are all
`None` in the source). -/
structure MenuItem where
  id : String
  label : String
  enabled : Bool
deriving Repr, DecidableEq

/-- A notification delivered to a window by `window.emit(name, payload)`:
event name plus optional payload; the source always emits `()`, i.e. no
payload, which we render as `none`. -/
structure Notification where
  event : String
  payload : Option String
deriving Repr, DecidableEq

/-- The observable state of one webview window: its visibility and the
notifications it has received, in order. -/
structure Window where
  visible : Bool
  received : List Notification
deriving Repr, DecidableEq

/-- The world the tray controller acts on: the menu it constructed, the menu
attached to the tray icon, and the app's windows keyed by label. -/
structure SysState where
  menu : List MenuItem
  trayMenu : List MenuItem
  windows : List (String × Window)
deriving Repr, DecidableEq

/-- External calls the menu-event handler can attempt. -/
inductive Call where
  | windowShow (label : String)
  | windowHide (label : String)
  | windowEmit (label : String) (event : String) (payload : Option String)
  | appExit (code : Int)
deriving Repr, DecidableEq

/-- The window label a call acts on, if any (`appExit` touches no window). -/
def Call.target : Call → Option String
  | Call.windowShow l => some l
  | Call.windowHide l => some l
  | Call.windowEmit l _ _ => some l
  | Call.appExit _ => none

/-- Whether the handler returned normally or requested process exit. -/
inductive Outcome where
  | normal
  | exited (code : Int)
deriving Repr, DecidableEq

/-- Results of the fallible window calls: `window.show()` and `window.hide()`
return a `Result` that the source discards with `let _ = ...`; the oracle says
whether each such call would succeed at this dispatch. -/
structure Oracle where
  showOk : Bool
  hideOk : Bool
deriving Repr, DecidableEq

/-- `app.get_webview_window(label)`: look up a window by its label. -/
def getWebviewWindow (st : SysState) (label : String) : Option Window :=
  (st.windows.find? (fun p => p.fst == label)).map Prod.snd

/-- Replace the window stored under `label` by `f` of it, leaving the menu,
the tray menu and every other window untouched. -/
def updateWindow (st : SysState) (label : String) (f : Window → Window) : SysState :=
  { st with
    windows := st.windows.map (fun p => if p.fst == label then (p.fst, f p.snd) else p) }

/-- The fixed label of the target window in the source. -/
def mainLabel : String := "main"

/-- Everything one dispatch of the handler did: the resulting state, the
window labels looked up, the external calls attempted, and the outcome. -/
structure DispatchResult where
  state : SysState
  lookups : List String
  calls : List Call
  outcome : Outcome
deriving Repr, DecidableEq

/-- The `on_menu_event` closure: match on `event.id.as_ref()`; the `show` and
`hide` arms look up window `"main"` and, if found, attempt one fallible call
whose `Result` is discarded; the three emit arms look up `"main"` and, if
found, emit one named notification with unit payload; `quit` calls
`app.exit(0)`; anything else does nothing. -/
def onMenuEvent (oc : Oracle) (st : SysState) (eventId : String) : DispatchResult :=
  if eventId = "show" then
    match getWebviewWindow st mainLabel with
    | some _ =>
      { state :=
          if oc.showOk then
            updateWindow st mainLabel (fun w => { w with visible := true })
          else st
        lookups := [mainLabel]
        calls := [Call.windowShow mainLabel]
        outcome := Outcome.normal }
    | none =>
      { state := st, lookups := [mainLabel], calls := [], outcome := Outcome.normal }
  else if eventId = "hide" then
    match getWebviewWindow st mainLabel with
    | some _ =>
      { state :=
          if oc.hideOk then
            updateWindow st mainLabel (fun w => { w with visible := false })
          else st
        lookups := [mainLabel]
        calls := [Call.windowHide mainLabel]
        outcome := Outcome.normal }
    | none =>
      { state := st, lookups := [mainLabel], calls := [], outcome := Outcome.normal }
  else if eventId = "click_through" then
    match getWebviewWindow st mainLabel with
    | some _ =>
      { state :=
          updateWindow st mainLabel
            (fun w => { w with received := w.received ++ [⟨"toggle-click-through", none⟩] })
        lookups := [mainLabel]
        calls := [Call.windowEmit mainLabel "toggle-click-through" none]
        outcome := Outcome.normal }
    | none =>
      { state := st, lookups := [mainLabel], calls := [], outcome := Outcome.normal }
  else if eventId = "reset_pos" then
    match getWebviewWindow st mainLabel with
    | some _ =>
      { state :=
          updateWindow st mainLabel
            (fun w => { w with received := w.received ++ [⟨"reset-position", none⟩] })
        lookups := [mainLabel]
        calls := [Call.windowEmit mainLabel "reset-position" none]
        outcome := Outcome.normal }
    | none =>
      { state := st, lookups := [mainLabel], calls := [], outcome := Outcome.normal }
  else if eventId = "autostart" then
    match getWebviewWindow st mainLabel with
    | some _ =>
      { state :=
          updateWindow st mainLabel
            (fun w => { w with received := w.received ++ [⟨"toggle-autostart", none⟩] })
        lookups := [mainLabel]
        calls := [Call.windowEmit mainLabel "toggle-autostart" none]
        outcome := Outcome.normal }
    | none =>
      { state := st, lookups := [mainLabel], calls := [], outcome := Outcome.normal }
  else if eventId = "quit" then
    { state := st, lookups := [], calls := [Call.appExit 0], outcome := Outcome.exited 0 }
  else
    { state := st, lookups := [], calls := [], outcome := Outcome.normal }

/-- Run the handler over a queue of menu events in order; a dispatch whose
outcome is `exited` terminates the process, so later events are not
processed. Returns the final state and all calls attempted. -/
def processEvents (oc : Oracle) (st : SysState) : List String → SysState × List Call
  | [] => (st, [])
  | e :: rest =>
    let r := onMenuEvent oc st e
    match r.outcome with
    | Outcome.exited _ => (r.state, r.calls)
    | Outcome.normal =>
      let pr := processEvents oc r.state rest
      (pr.fst, r.calls ++ pr.snd)

/-- Failure injection for the fallible constructors the `setup` closure calls
with `?`: `MenuItem::with_id` (keyed by the item identifier),
`Menu::with_items`, and `TrayIconBuilder::build`. `none` means the call
succeeds. -/
structure SetupEnv where
  itemError : String → Option String
  menuError : Option String
  trayError : Option String

/-- `MenuItem::with_id(app, id, label, enabled, None)`: fails with the
injected error for this identifier, otherwise yields the menu item. -/
def menuItemWithId (env : SetupEnv) (id label : String) (enabled : Bool) :
    Except String MenuItem :=
  match env.itemError id with
  | some e => Except.error e
  | none => Except.ok { id := id, label := label, enabled := enabled }

/-- `Menu::with_items(app, &[...])`: fails with the injected error, otherwise
yields the menu holding exactly the given items in order. -/
def menuWithItems (env : SetupEnv) (items : List MenuItem) :
    Except String (List MenuItem) :=
  match env.menuError with
  | some e => Except.error e
  | none => Except.ok items

/-- `TrayIconBuilder::new().menu(&menu).on_menu_event(...).build(app)`: fails
with the injected error, otherwise yields a tray icon carrying the menu. -/
def trayBuild (env : SetupEnv) (menu : List MenuItem) :
    Except String (List MenuItem) :=
  match env.trayError with
  | some e => Except.error e
  | none => Except.ok menu

/-- The `setup` closure: construct the six menu items, the menu, and the tray
icon, each with `?`, so the first failure aborts the whole chain. On success
it returns the menu attached to the tray icon. -/
def setup (env : SetupEnv) : Except String (List MenuItem) := do
  let showItem ← menuItemWithId env "show" "Show" true
  let hideItem ← menuItemWithId env "hide" "Hide" true
  let clickThrough ← menuItemWithId env "click_through" "Toggle Click-Through" true
  let resetPos ← menuItemWithId env "reset_pos" "Reset Position" true
  let autostartItem ← menuItemWithId env "autostart" "Start at Login" true
  let quitItem ← menuItemWithId env "quit" "Quit" true
  let menu ← menuWithItems env
    [showItem, hideItem, clickThrough, resetPos, autostartItem, quitItem]
  let tray ← trayBuild env menu
  pure tray

/-- Outcome of `run`: either the application is running with its tray menu in
place, or startup aborted fatally with a diagnostic. -/
inductive RunOutcome where
  | fatal (diagnostic : String)
  | running (menu : List MenuItem)
deriving Repr, DecidableEq

/-- Whether startup aborted. -/
def RunOutcome.isFatal : RunOutcome → Bool
  | RunOutcome.fatal _ => true
  | RunOutcome.running _ => false

/-- `run`: build the app; a setup error surfaces from `.run(...)` and
`.expect("error while running tauri application")` aborts with that
diagnostic and the error's cause. -/
def runApp (env : SetupEnv) : RunOutcome :=
  match setup env with
  | Except.error e => RunOutcome.fatal ("error while running tauri application: " ++ e)
  | Except.ok m => RunOutcome.running m

/-- The six menu entries the source constructs, in source order. -/
def trayMenuEntries : List MenuItem :=
  [{ id := "show", label := "Show", enabled := true },
   { id := "hide", label := "Hide", enabled := true },
   { id := "click_through", label := "Toggle Click-Through", enabled := true },
   { id := "reset_pos", label := "Reset Position", enabled := true },
   { id := "autostart", label := "Start at Login", enabled := true },
   { id := "quit", label := "Quit", enabled := true }]
lemma find?_map_keyUpdate (l : List (String × Window)) (label : String) (f : Window → Window) :
    (l.map (fun p => if p.fst == label then (p.fst, f p.snd) else p)).find?
        (fun p => p.fst == label)
      = (l.find? (fun p => p.fst == label)).map (fun p => (p.fst, f p.snd)) := by
  induction l with
  | nil => rfl
  | cons hd tl ih =>
    simp only [List.map_cons]
    cases h : hd.fst == label with
    | true =>
      rw [if_pos rfl]
      simp only [List.find?, h, Option.map_some']
    | false =>
      rw [if_neg (by simp)]
      simp only [List.find?, h]
      exact ih

lemma getWebviewWindow_updateWindow_self (st : SysState) (label : String) (f : Window → Window) :
    getWebviewWindow (updateWindow st label f) label
      = (getWebviewWindow st label).map f := by
  simp only [getWebviewWindow, updateWindow]
  rw [find?_map_keyUpdate]
  cases st.windows.find? (fun p => p.fst == label) <;> rfl

lemma find?_map_keyUpdate_other (l : List (String × Window)) (label l2 : String)
    (f : Window → Window) (h : l2 ≠ label) :
    (l.map (fun p => if p.fst == label then (p.fst, f p.snd) else p)).find?
        (fun p => p.fst == l2)
      = l.find? (fun p => p.fst == l2) := by
  induction l with
  | nil => rfl
  | cons hd tl ih =>
    simp only [List.map_cons]
    cases hk : hd.fst == label with
    | true =>
      have hk2 : (hd.fst == l2) = false := by
        simp only [beq_iff_eq] at hk
        simp [hk, Ne.symm h]
      rw [if_pos rfl]
      simp only [List.find?, hk2]
      exact ih
    | false =>
      rw [if_neg (by simp)]
      cases hl : hd.fst == l2 with
      | true => simp only [List.find?, hl]
      | false =>
        simp only [List.find?, hl]
        exact ih

lemma getWebviewWindow_updateWindow_other (st : SysState) (label l2 : String)
    (f : Window → Window) (h : l2 ≠ label) :
    getWebviewWindow (updateWindow st label f) l2 = getWebviewWindow st l2 := by
  simp only [getWebviewWindow, updateWindow]
  rw [find?_map_keyUpdate_other _ _ _ _ h]

lemma updateWindow_menu (st : SysState) (label : String) (f : Window → Window) :
    (updateWindow st label f).menu = st.menu := rfl

lemma updateWindow_trayMenu (st : SysState) (label : String) (f : Window → Window) :
    (updateWindow st label f).trayMenu = st.trayMenu := rfl
lemma onMenuEvent_state_shape (oc : Oracle) (st : SysState) (eventId : String) :
    (onMenuEvent oc st eventId).state = st
  ∨ ∃ f, (onMenuEvent oc st eventId).state = updateWindow st mainLabel f := by
  unfold onMenuEvent
  split_ifs <;>
  first
  | exact Or.inl rfl
  | · cases hg : getWebviewWindow st mainLabel with
      | none => exact Or.inl rfl
      | some w =>
        first
        | exact Or.inl rfl
        | exact Or.inr ⟨fun v => { v with visible := true }, rfl⟩
        | exact Or.inr ⟨fun v => { v with visible := false }, rfl⟩
        | exact Or.inr
            ⟨fun v => { v with received := v.received ++ [⟨"toggle-click-through", none⟩] }, rfl⟩
        | exact Or.inr
            ⟨fun v => { v with received := v.received ++ [⟨"reset-position", none⟩] }, rfl⟩
        | exact Or.inr
            ⟨fun v => { v with received := v.received ++ [⟨"toggle-autostart", none⟩] }, rfl⟩

lemma onMenuEvent_menu (oc : Oracle) (st : SysState) (eventId : String) :
    (onMenuEvent oc st eventId).state.menu = st.menu := by
  rcases onMenuEvent_state_shape oc st eventId with h | ⟨f, h⟩
  · rw [h]
  · rw [h, updateWindow_menu]

lemma onMenuEvent_trayMenu (oc : Oracle) (st : SysState) (eventId : String) :
    (onMenuEvent oc st eventId).state.trayMenu = st.trayMenu := by
  rcases onMenuEvent_state_shape oc st eventId with h | ⟨f, h⟩
  · rw [h]
  · rw [h, updateWindow_trayMenu]

lemma onMenuEvent_other_window (oc : Oracle) (st : SysState) (eventId : String)
    (l : String) (hl : l ≠ mainLabel) :
    getWebviewWindow (onMenuEvent oc st eventId).state l = getWebviewWindow st l := by
  rcases onMenuEvent_state_shape oc st eventId with h | ⟨f, h⟩
  · rw [h]
  · rw [h, getWebviewWindow_updateWindow_other _ _ _ _ hl]

lemma onMenuEvent_lookups_calls (oc : Oracle) (st : SysState) (eventId : String) :
    ((onMenuEvent oc st eventId).lookups = [] ∨ (onMenuEvent oc st eventId).lookups = [mainLabel])
  ∧ ((onMenuEvent oc st eventId).calls = []
      ∨ (onMenuEvent oc st eventId).calls = [Call.appExit 0]
      ∨ ∃ c, (onMenuEvent oc st eventId).calls = [c] ∧ Call.target c = some mainLabel) := by
  unfold onMenuEvent
  split_ifs <;>
  first
  | exact ⟨Or.inl rfl, Or.inl rfl⟩
  | exact ⟨Or.inl rfl, Or.inr (Or.inl rfl)⟩
  | · cases hg : getWebviewWindow st mainLabel with
      | none => exact ⟨Or.inr rfl, Or.inl rfl⟩
      | some w =>
        exact ⟨Or.inr rfl, Or.inr (Or.inr ⟨_, rfl, rfl⟩)⟩
lemma setup_ok_characterize (env : SetupEnv) (m : List MenuItem)
    (h : setup env = Except.ok m) :
    env.itemError "show" = none ∧ env.itemError "hide" = none
  ∧ env.itemError "click_through" = none ∧ env.itemError "reset_pos" = none
  ∧ env.itemError "autostart" = none ∧ env.itemError "quit" = none
  ∧ env.menuError = none ∧ env.trayError = none ∧ m = trayMenuEntries := by
  unfold setup menuItemWithId menuWithItems trayBuild at h
  cases h1 : env.itemError "show" <;> rw [h1] at h
  case some => simp [Bind.bind, Except.bind] at h
  cases h2 : env.itemError "hide" <;> rw [h2] at h
  case some => simp [Bind.bind, Except.bind] at h
  cases h3 : env.itemError "click_through" <;> rw [h3] at h
  case some => simp [Bind.bind, Except.bind] at h
  cases h4 : env.itemError "reset_pos" <;> rw [h4] at h
  case some => simp [Bind.bind, Except.bind] at h
  cases h5 : env.itemError "autostart" <;> rw [h5] at h
  case some => simp [Bind.bind, Except.bind] at h
  cases h6 : env.itemError "quit" <;> rw [h6] at h
  case some => simp [Bind.bind, Except.bind] at h
  cases h7 : env.menuError <;> rw [h7] at h
  case some => simp [Bind.bind, Except.bind] at h
  cases h8 : env.trayError <;> rw [h8] at h
  case some => simp [Bind.bind, Except.bind] at h
  simp [Bind.bind, Except.bind, pure, Except.pure] at h
  exact ⟨rfl, rfl, rfl, rfl, rfl, rfl, rfl, rfl, by rw [← h]; rfl⟩
/-- A sample window used in concrete witnesses. -/
def sampleWindow : Window := { visible := true, received := [] }

/-- A sample state whose only window is `"main"`. -/
def sampleState : SysState :=
  { menu := trayMenuEntries, trayMenu := trayMenuEntries
    windows := [(mainLabel, sampleWindow)] }

/-- A sample state that differs from `sampleState` everywhere except at the
`"main"` window. -/
def otherState : SysState :=
  { menu := [], trayMenu := []
    windows := [("settings", { visible := false, received := [] }), (mainLabel, sampleWindow)] }

/-- A sample state with no windows at all. -/
def emptyState : SysState :=
  { menu := trayMenuEntries, trayMenu := trayMenuEntries, windows := [] }

/-- A sample oracle on which both window calls succeed. -/
def sampleOracle : Oracle := { showOk := true, hideOk := true }

/-- A startup environment in which every construction succeeds. -/
def okEnv : SetupEnv := { itemError := fun _ => none, menuError := none, trayError := none }

/-- A startup environment in which building the tray icon fails. -/
def trayFailEnv : SetupEnv :=
  { itemError := fun _ => none, menuError := none, trayError := some "tray API unavailable" }

/-- Claim C1: for every one of the six fixed menu identifiers, dispatching it
performs exactly the one action documented for it — for the first five a
single best-effort call on window `"main"` when it exists (nothing when it
does not), for `quit` a process exit with code 0 — and attempts no other
call. -/
theorem menu_dispatch_exact_action (oc : Oracle) (st : SysState) :
    ((onMenuEvent oc st "show").calls
        = (match getWebviewWindow st mainLabel with
            | some _ => [Call.windowShow mainLabel]
            | none => [])
      ∧ (onMenuEvent oc st "show").outcome = Outcome.normal)
  ∧ ((onMenuEvent oc st "hide").calls
        = (match getWebviewWindow st mainLabel with
            | some _ => [Call.windowHide mainLabel]
            | none => [])
      ∧ (onMenuEvent oc st "hide").outcome = Outcome.normal)
  ∧ ((onMenuEvent oc st "click_through").calls
        = (match getWebviewWindow st mainLabel with
            | some _ => [Call.windowEmit mainLabel "toggle-click-through" none]
            | none => [])
      ∧ (onMenuEvent oc st "click_through").outcome = Outcome.normal)
  ∧ ((onMenuEvent oc st "reset_pos").calls
        = (match getWebviewWindow st mainLabel with
            | some _ => [Call.windowEmit mainLabel "reset-position" none]
            | none => [])
      ∧ (onMenuEvent oc st "reset_pos").outcome = Outcome.normal)
  ∧ ((onMenuEvent oc st "autostart").calls
        = (match getWebviewWindow st mainLabel with
            | some _ => [Call.windowEmit mainLabel "toggle-autostart" none]
            | none => [])
      ∧ (onMenuEvent oc st "autostart").outcome = Outcome.normal)
  ∧ ((onMenuEvent oc st "quit").calls = [Call.appExit 0]
      ∧ (onMenuEvent oc st "quit").outcome = Outcome.exited 0) := by
  cases hg : getWebviewWindow st mainLabel <;> simp [onMenuEvent, hg]

/-- Claim C2: for each of `click_through`, `reset_pos`, `autostart`, if
window `"main"` exists at dispatch time, dispatch attempts exactly one emit
call and the window's received notifications grow by exactly the one
corresponding notification (`toggle-click-through`, `reset-position`,
`toggle-autostart`) with no payload. -/
theorem notify_dispatch_single_notification (oc : Oracle) (st : SysState) (w : Window)
    (h : getWebviewWindow st mainLabel = some w) :
    ((onMenuEvent oc st "click_through").calls
        = [Call.windowEmit mainLabel "toggle-click-through" none]
      ∧ getWebviewWindow (onMenuEvent oc st "click_through").state mainLabel
          = some { w with received := w.received ++ [⟨"toggle-click-through", none⟩] })
  ∧ ((onMenuEvent oc st "reset_pos").calls
        = [Call.windowEmit mainLabel "reset-position" none]
      ∧ getWebviewWindow (onMenuEvent oc st "reset_pos").state mainLabel
          = some { w with received := w.received ++ [⟨"reset-position", none⟩] })
  ∧ ((onMenuEvent oc st "autostart").calls
        = [Call.windowEmit mainLabel "toggle-autostart" none]
      ∧ getWebviewWindow (onMenuEvent oc st "autostart").state mainLabel
          = some { w with received := w.received ++ [⟨"toggle-autostart", none⟩] }) := by
  simp [onMenuEvent, h, getWebviewWindow_updateWindow_self]

/-- Claim C3: dispatching `quit` exits the process with code 0, regardless of
the window state, and a `quit` in an event queue stops all further
processing. -/
theorem quit_dispatch_exits_immediately (oc : Oracle) (st : SysState) (rest : List String) :
    onMenuEvent oc st "quit"
      = { state := st, lookups := [], calls := [Call.appExit 0], outcome := Outcome.exited 0 }
  ∧ processEvents oc st ("quit" :: rest) = (st, [Call.appExit 0]) :=
  ⟨rfl, rfl⟩

/-- Claim C4: dispatching `show` or `hide` when no window named `"main"`
exists performs the lookup, attempts no call, changes nothing, and returns
normally (no panic, no error). -/
theorem missing_window_show_hide_noop (oc : Oracle) (st : SysState)
    (h : getWebviewWindow st mainLabel = none) :
    onMenuEvent oc st "show"
      = { state := st, lookups := [mainLabel], calls := [], outcome := Outcome.normal }
  ∧ onMenuEvent oc st "hide"
      = { state := st, lookups := [mainLabel], calls := [], outcome := Outcome.normal } := by
  constructor <;> simp [onMenuEvent, h]

/-- Claim C5: dispatching any identifier outside the fixed six-element set is
a no-op: no lookup, no call, no state change, normal return. -/
theorem unknown_identifier_noop (oc : Oracle) (st : SysState) (eventId : String)
    (h : eventId ∉
      (["show", "hide", "click_through", "reset_pos", "autostart", "quit"] : List String)) :
    onMenuEvent oc st eventId
      = { state := st, lookups := [], calls := [], outcome := Outcome.normal } := by
  simp only [List.mem_cons, List.not_mem_nil, or_false, not_or] at h
  obtain ⟨h1, h2, h3, h4, h5, h6⟩ := h
  simp [onMenuEvent, h1, h2, h3, h4, h5, h6]

/-- Claim C6: a successful menu construction yields exactly the six entries
in the fixed order with the fixed identifiers and labels, all enabled and
without duplicates; dispatch never changes the menu or the tray's menu. -/
theorem menu_construction_fixed_entries (env : SetupEnv) (m : List MenuItem)
    (oc : Oracle) (st : SysState) (eventId : String)
    (h : setup env = Except.ok m) :
    m = trayMenuEntries
  ∧ trayMenuEntries.map MenuItem.id
      = ["show", "hide", "click_through", "reset_pos", "autostart", "quit"]
  ∧ trayMenuEntries.map MenuItem.label
      = ["Show", "Hide", "Toggle Click-Through", "Reset Position", "Start at Login", "Quit"]
  ∧ trayMenuEntries.all MenuItem.enabled = true
  ∧ (trayMenuEntries.map MenuItem.id).Nodup
  ∧ (onMenuEvent oc st eventId).state.menu = st.menu
  ∧ (onMenuEvent oc st eventId).state.trayMenu = st.trayMenu :=
  ⟨(setup_ok_characterize env m h).2.2.2.2.2.2.2.2, by decide, by decide, by decide,
   by decide, onMenuEvent_menu oc st eventId, onMenuEvent_trayMenu oc st eventId⟩

/-- Claim C7: if construction of any menu item, the menu, or the tray icon
fails during startup, the whole startup aborts fatally (with a diagnostic)
instead of running in a degraded state. -/
theorem startup_failure_fatal (env : SetupEnv)
    (h : (env.itemError "show").isSome = true ∨ (env.itemError "hide").isSome = true
       ∨ (env.itemError "click_through").isSome = true
       ∨ (env.itemError "reset_pos").isSome = true
       ∨ (env.itemError "autostart").isSome = true ∨ (env.itemError "quit").isSome = true
       ∨ env.menuError.isSome = true ∨ env.trayError.isSome = true) :
    (runApp env).isFatal = true := by
  cases hs : setup env with
  | error e => simp [runApp, hs, RunOutcome.isFatal]
  | ok m =>
    exfalso
    obtain ⟨c1, c2, c3, c4, c5, c6, c7, c8, _⟩ := setup_ok_characterize env m hs
    rcases h with h | h | h | h | h | h | h | h <;> simp_all

/-- Claim C8: when window `"main"` is present, a failing `show` or `hide`
call is swallowed exactly like the missing-window case: the outcome is
normal for every success/failure combination, equal to the missing-window
outcome, and exactly one call is attempted (no retry). -/
theorem show_hide_failure_swallowed (st : SysState) (w : Window) (b1 b2 : Bool)
    (h : getWebviewWindow st mainLabel = some w) :
    (onMenuEvent { showOk := b1, hideOk := b2 } st "show").outcome = Outcome.normal
  ∧ (onMenuEvent { showOk := b1, hideOk := b2 } st "show").calls = [Call.windowShow mainLabel]
  ∧ (onMenuEvent { showOk := b1, hideOk := b2 } st "hide").outcome = Outcome.normal
  ∧ (onMenuEvent { showOk := b1, hideOk := b2 } st "hide").calls = [Call.windowHide mainLabel]
  ∧ (onMenuEvent { showOk := b1, hideOk := b2 } st "show").outcome
      = (onMenuEvent { showOk := b1, hideOk := b2 } { st with windows := [] } "show").outcome
  ∧ (onMenuEvent { showOk := b1, hideOk := b2 } st "hide").outcome
      = (onMenuEvent { showOk := b1, hideOk := b2 } { st with windows := [] } "hide").outcome := by
  have hempty : getWebviewWindow { st with windows := [] } mainLabel = none := rfl
  simp [onMenuEvent, h, hempty]

/-- Claim C9: every dispatch only ever looks up the window `"main"`, every
attempted call targets `"main"` or no window at all, and the menu, the
tray's menu, and every window other than `"main"` are left unchanged. -/
theorem dispatch_touches_only_main (oc : Oracle) (st : SysState) (eventId : String) :
    (∀ l ∈ (onMenuEvent oc st eventId).lookups, l = mainLabel)
  ∧ (∀ c ∈ (onMenuEvent oc st eventId).calls,
      Call.target c = some mainLabel ∨ Call.target c = none)
  ∧ (onMenuEvent oc st eventId).state.menu = st.menu
  ∧ (onMenuEvent oc st eventId).state.trayMenu = st.trayMenu
  ∧ (∀ l, l ≠ mainLabel →
      getWebviewWindow (onMenuEvent oc st eventId).state l = getWebviewWindow st l) := by
  obtain ⟨hl, hc⟩ := onMenuEvent_lookups_calls oc st eventId
  refine ⟨?_, ?_, onMenuEvent_menu oc st eventId, onMenuEvent_trayMenu oc st eventId,
    fun l hne => onMenuEvent_other_window oc st eventId l hne⟩
  · rcases hl with h | h <;> simp [h]
  · rcases hc with h | h | ⟨c, h, ht⟩
    · simp [h]
    · simp [h, Call.target]
    · simp [h, ht]

/-- Claim C10: dispatch is deterministic and depends only on the identifier
and the state of window `"main"`: two dispatches of the same identifier on
states agreeing at `"main"` look up the same labels, attempt the same calls
and have the same outcome. -/
theorem dispatch_deterministic (oc : Oracle) (st1 st2 : SysState) (eventId : String)
    (h : getWebviewWindow st1 mainLabel = getWebviewWindow st2 mainLabel) :
    (onMenuEvent oc st1 eventId).lookups = (onMenuEvent oc st2 eventId).lookups
  ∧ (onMenuEvent oc st1 eventId).calls = (onMenuEvent oc st2 eventId).calls
  ∧ (onMenuEvent oc st1 eventId).outcome = (onMenuEvent oc st2 eventId).outcome := by
  unfold onMenuEvent
  split_ifs <;>
  first
  | exact ⟨rfl, rfl, rfl⟩
  | · rw [h]
      cases getWebviewWindow st2 mainLabel <;> exact ⟨rfl, rfl, rfl⟩

/-- Witness for C2 at a concrete state whose `"main"` window exists. -/
theorem notify_dispatch_single_notification_witness :
    (onMenuEvent sampleOracle sampleState "click_through").calls
      = [Call.windowEmit mainLabel "toggle-click-through" none] :=
  ((notify_dispatch_single_notification sampleOracle sampleState sampleWindow (by decide)).1).1

/-- Witness for C4 at a concrete state with no windows. -/
theorem missing_window_show_hide_noop_witness :
    onMenuEvent sampleOracle emptyState "show"
      = { state := emptyState, lookups := [mainLabel], calls := [], outcome := Outcome.normal } :=
  (missing_window_show_hide_noop sampleOracle emptyState (by decide)).1

/-- Witness for C5 at the concrete unrecognized identifier `"bogus"`. -/
theorem unknown_identifier_noop_witness :
    onMenuEvent sampleOracle sampleState "bogus"
      = { state := sampleState, lookups := [], calls := [], outcome := Outcome.normal } :=
  unknown_identifier_noop sampleOracle sampleState "bogus" (by decide)

/-- Witness for C6 at a concrete environment where setup succeeds. -/
theorem menu_construction_fixed_entries_witness :
    (onMenuEvent sampleOracle sampleState "show").state.menu = sampleState.menu :=
  (menu_construction_fixed_entries okEnv trayMenuEntries sampleOracle sampleState "show"
    (by rfl)).2.2.2.2.2.1

/-- Witness for C7 at a concrete environment whose tray construction fails. -/
theorem startup_failure_fatal_witness : (runApp trayFailEnv).isFatal = true :=
  startup_failure_fatal trayFailEnv (by decide)

/-- Witness for C8 at a concrete state with both window calls failing. -/
theorem show_hide_failure_swallowed_witness :
    (onMenuEvent { showOk := false, hideOk := false } sampleState "show").outcome
      = Outcome.normal :=
  (show_hide_failure_swallowed sampleState sampleWindow false false (by decide)).1

/-- Witness for C9 at a concrete state and a concrete other window label. -/
theorem dispatch_touches_only_main_witness :
    getWebviewWindow (onMenuEvent sampleOracle otherState "show").state "settings"
      = getWebviewWindow otherState "settings" :=
  (dispatch_touches_only_main sampleOracle otherState "show").2.2.2.2 "settings" (by decide)

/-- Witness for C10 at two concrete states agreeing at `"main"` only. -/
theorem dispatch_deterministic_witness :
    (onMenuEvent sampleOracle sampleState "hide").calls
      = (onMenuEvent sampleOracle otherState "hide").calls :=
  (dispatch_deterministic sampleOracle sampleState otherState "hide" (by decide)).2.1
